import Mathlib

/-!
Verification development for the AgroLanding landing-page repository.

The file embeds, as executable Lean definitions, the parts of
`src/src/utils/validation.js` that the documented properties concern:

* the form-validation helpers (`sanitizeInput`, `validateEmail`,
  `validateMessage`, `validateCheckbox`);
* the accessibility utilities that share the same source file: the focus
  trap (`createFocusTrap` / `handleTabKey` / `handleEscapeKey` /
  `activate` / `release`), the roving-tabindex controller
  (`createRovingTabindex` / `moveTo` / `handleKeydown` / `updateTabindex`
  / `destroy`) and the screen-reader announcer (`announce`).

Strings are modelled as lists of characters (`List Char`); a JS string's
`.length` is modelled as the list length (the two agree on all
basic-multilingual-plane text, which covers every constant appearing in
the source).  DOM elements are modelled by natural-number identifiers.
The single-threaded JS event loop with `setTimeout` is modelled as a
discrete-event scheduler: a list of pending (fire-time, action) pairs,
drained in time order with ties broken by scheduling order, exactly as
browser timer queues behave.
-/

/-! ## JS character classes

`isJsWhitespaceChar` is the character set matched by the regex class
`\s` in JavaScript, which is also the set removed by
`String.prototype.trim` (WhiteSpace plus LineTerminator productions). -/

def isJsWhitespaceChar (c : Char) : Bool :=
  c = ' ' || c = '\t' || c = '\n' || c.toNat = 0x0B || c.toNat = 0x0C ||
  c = '\r' || c.toNat = 0xA0 || c.toNat = 0x1680 ||
  (0x2000 ≤ c.toNat && c.toNat ≤ 0x200A) ||
  c.toNat = 0x2028 || c.toNat = 0x2029 || c.toNat = 0x202F ||
  c.toNat = 0x205F || c.toNat = 0x3000 || c.toNat = 0xFEFF

/-- Characters removed by `sanitizeInput`'s replace step: the regex
character class in the source is x00-x08, x0B, x0C, x0E-x1F, x7F
(control characters except newline, tab and carriage return). -/
def isStrippedControlChar (c : Char) : Bool :=
  c.toNat ≤ 0x08 || c.toNat = 0x0B || c.toNat = 0x0C ||
  (0x0E ≤ c.toNat && c.toNat ≤ 0x1F) || c.toNat = 0x7F

/-- JS `String.prototype.trim`: drop JS whitespace from both ends. -/
def trimJs (cs : List Char) : List Char :=
  ((cs.dropWhile isJsWhitespaceChar).reverse.dropWhile isJsWhitespaceChar).reverse

/-- `sanitizeInput` from `validation.js`: trim whitespace, then remove the
control characters listed in `isStrippedControlChar`.  The JS function
returns the empty string on non-string input; the embedding's domain is
strings only, so that branch is outside the model. -/
def sanitizeInput (input : List Char) : List Char :=
  (trimJs input).filter (fun c => !isStrippedControlChar c)

/-! ## Email pattern

`EMAIL_PATTERN` in the source is the regex
`^[^\s@]+@[^\s@]+\.[^\s@]+$`.  A string matches it iff it contains
exactly one at-sign, the (non-empty) part before it contains no
whitespace, and the part after it consists of non-whitespace
non-at-sign characters and contains a dot that is neither its first nor
its last character (the two `[^\s@]+` groups around `\.` must both be
non-empty; they may themselves contain further dots). -/

def isEmailAtomChar (c : Char) : Bool :=
  !(c = '@') && !(isJsWhitespaceChar c)

/-- JS `String.prototype.split` with a single-character separator. -/
def jsSplit (sep : Char) : List Char → List (List Char)
  | [] => [[]]
  | c :: rest =>
    if c = sep then [] :: jsSplit sep rest
    else
      match jsSplit sep rest with
      | [] => [[c]]
      | part :: parts => (c :: part) :: parts

/-- The test `EMAIL_PATTERN.test(s)` from `validation.js`. -/
def emailPatternTest (cs : List Char) : Bool :=
  match jsSplit '@' cs with
  | [l, d] =>
    !l.isEmpty && l.all isEmailAtomChar && d.all isEmailAtomChar &&
      ((d.drop 1).dropLast.contains '.')
  | _ => false

/-- JS `s.includes('..')`: the list contains two consecutive dots. -/
def hasDoubleDot : List Char → Bool
  | '.' :: '.' :: _ => true
  | _ :: rest => hasDoubleDot rest
  | [] => false

/-- Result record shared by all the field validators in `validation.js`:
`{ isValid, error }` with `error` null exactly on success. -/
structure ValidationResult where
  isValid : Bool
  error : Option String
  deriving Repr, DecidableEq

/-- `validateEmail` from `validation.js`.  The branches appear in source
order: empty after sanitizing, longer than the RFC 5321 maximum (254),
regex failure, consecutive dots, and an empty dot-separated domain
segment. -/
def validateEmail (email : List Char) : ValidationResult :=
  let sanitized := sanitizeInput email
  if sanitized = [] then
    ⟨false, some "Email address is required"⟩
  else if sanitized.length > 254 then
    ⟨false, some "Email address is too long"⟩
  else if !emailPatternTest sanitized then
    ⟨false, some "Please enter a valid email address (e.g., name@example.com)"⟩
  else if hasDoubleDot sanitized then
    ⟨false, some "Email address cannot contain consecutive dots"⟩
  else
    match (jsSplit '@' sanitized).drop 1 with
    | domain :: _ =>
      if domain ≠ [] ∧ (jsSplit '.' domain).any (fun part => part.isEmpty) then
        ⟨false, some "Please enter a valid email domain"⟩
      else
        ⟨true, none⟩
    | [] => ⟨true, none⟩

/-- `validateMessage` from `validation.js`: required, then length bounds
10 and 1000 from `VALIDATION_CONSTRAINTS.message`. -/
def validateMessage (message : List Char) : ValidationResult :=
  let sanitized := sanitizeInput message
  if sanitized = [] then
    ⟨false, some "Message is required"⟩
  else if sanitized.length < 10 then
    ⟨false, some "Message must be at least 10 characters"⟩
  else if sanitized.length > 1000 then
    ⟨false, some "Message must not exceed 1000 characters"⟩
  else
    ⟨true, none⟩

/-- `validateCheckbox` from `validation.js` (field name fixed to the
default, which only affects the error text). -/
def validateCheckbox (checked : Bool) : ValidationResult :=
  if !checked then
    ⟨false, some "You must agree to this field"⟩
  else
    ⟨true, none⟩

/-! ## Focus trap

DOM elements are natural-number identifiers.  The trap's mutable
closure state `{ active, container, returnFocus, allowOutsideClick }`
together with the three document-level listener registrations and the
modelled `document.activeElement` form `TrapState`.  `returnFocus`
defaults to `document.activeElement` at `createFocusTrap` time (the
destructuring default in the source runs when the constructor runs). -/

structure TrapState where
  active : Bool
  container : Nat
  returnFocus : Nat
  allowOutsideClick : Bool
  tabKeyListener : Bool
  escapeKeyListener : Bool
  outsideClickListener : Bool
  focused : Nat
  deriving Repr, DecidableEq

/-- The state set up by `createFocusTrap` once the container has been
validated: inactive, no listeners attached, `returnFocus` resolved from
the option with `document.activeElement` as the default. -/
def mkTrapState (container : Nat) (returnFocusOpt : Option Nat)
    (allowOutsideClick : Bool) (docActiveElement : Nat) : TrapState :=
  { active := false
    container := container
    returnFocus :=
      match returnFocusOpt with
      | some r => r
      | none => docActiveElement
    allowOutsideClick := allowOutsideClick
    tabKeyListener := false
    escapeKeyListener := false
    outsideClickListener := false
    focused := docActiveElement }

/-- `createFocusTrap(container, options)`: a `none` container models
`null` or any non-Element value; the construction then returns the null
sentinel together with the logged diagnostic.  Totality of the
definition reflects that the source never throws here. -/
def createFocusTrap (container : Option Nat) (returnFocusOpt : Option Nat)
    (allowOutsideClick : Bool) (docActiveElement : Nat) :
    Option TrapState × List String :=
  match container with
  | none =>
    (none, ["[Accessibility] Invalid container provided to createFocusTrap"])
  | some c =>
    (some (mkTrapState c returnFocusOpt allowOutsideClick docActiveElement), [])

/-- `activate()`: no-op when already active; otherwise mark active,
attach the three document listeners, and move focus to `initialFocus`
if provided, else to the first focusable element of the container if
one exists, else leave focus alone. -/
def activate (st : TrapState) (initialFocus : Option Nat)
    (focusables : List Nat) : TrapState :=
  if st.active then st
  else
    { st with
      active := true
      tabKeyListener := true
      escapeKeyListener := true
      outsideClickListener := true
      focused :=
        match initialFocus with
        | some e => e
        | none =>
          match focusables with
          | [] => st.focused
          | first :: _ => first }

/-- `release()`: no-op when inactive; otherwise mark inactive, detach
the three document listeners, and restore focus to the captured
`returnFocus` element. -/
def release (st : TrapState) : TrapState :=
  if !st.active then st
  else
    { st with
      active := false
      tabKeyListener := false
      escapeKeyListener := false
      outsideClickListener := false
      focused := st.returnFocus }

/-- Focus moving to some element outside the trap's control (for
example the user clicking a field between `createFocusTrap` and
`activate`).  Only `document.activeElement` changes. -/
def focusChange (st : TrapState) (e : Nat) : TrapState :=
  { st with focused := e }

/-- A document-level keydown reaching the trap's listeners.
`handleEscapeKey` runs only while its listener is attached and calls
`release()` on the Escape key; `handleTabKey` (which never changes the
trap's state, only focus) is modelled separately by `handleTabKey`
below. -/
def dispatchKeydown (st : TrapState) (key : String) : TrapState :=
  if st.escapeKeyListener ∧ key = "Escape" then release st else st

/-- Well-formedness of a trap state: each of the three document-level
listeners is attached exactly while the trap is active — which is how
`activate` and `release` maintain them. -/
def listenersMatchActive (st : TrapState) : Prop :=
  st.tabKeyListener = st.active ∧ st.escapeKeyListener = st.active ∧
  st.outsideClickListener = st.active

/-- Outcome of `handleTabKey`: whether `event.preventDefault()` was
called and which element, if any, received focus through `setFocus`. -/
structure TabKeyOutcome where
  defaultPrevented : Bool
  focusSetTo : Option Nat
  deriving Repr, DecidableEq

/-- `handleTabKey(event)` from the focus trap, as a pure function of
the event, the freshly recomputed focusable list of the container, the
set of elements contained in the container, and
`document.activeElement`. -/
def handleTabKey (key : String) (shiftKey : Bool) (focusables : List Nat)
    (containerMembers : List Nat) (activeElement : Nat) : TabKeyOutcome :=
  if key ≠ "Tab" then ⟨false, none⟩
  else if focusables = [] then ⟨true, none⟩
  else
    let firstElement := focusables.headD 0
    let lastElement := focusables.getLastD 0
    if shiftKey then
      if activeElement = firstElement ∨ activeElement ∉ containerMembers then
        ⟨true, some lastElement⟩
      else ⟨false, none⟩
    else
      if activeElement = lastElement ∨ activeElement ∉ containerMembers then
        ⟨true, some firstElement⟩
      else ⟨false, none⟩

/-! ## Roving tabindex -/

/-- One managed element: its `tabindex` attribute value and whether the
controller's two listeners are currently attached to it. -/
structure ManagedElem where
  tabindex : String
  keydownListener : Bool
  focusListener : Bool
  deriving Repr, DecidableEq

/-- Controller state: the managed elements in order, `currentIndex`,
the two construction options, and the index of the managed element that
currently has browser focus (if any). -/
structure RovingState where
  elems : List ManagedElem
  currentIndex : Nat
  orientation : String
  wrap : Bool
  focusedIdx : Option Nat
  deriving Repr, DecidableEq

/-- `elements.forEach` body of `updateTabindex`: element at position
`currentIndex` gets `tabindex="0"`, all others `tabindex="-1"`.  `k` is
the position of the head of the remaining list. -/
def setTabs (cur : Nat) : Nat → List ManagedElem → List ManagedElem
  | _, [] => []
  | k, e :: rest =>
    { e with tabindex := if k = cur then "0" else "-1" } :: setTabs cur (k + 1) rest

/-- `updateTabindex()` from `createRovingTabindex`. -/
def updateTabindex (r : RovingState) : RovingState :=
  { r with elems := setTabs r.currentIndex 0 r.elems }

/-- `moveTo(index)`: out-of-range indices (negative or at least the
element count) are ignored; in-range indices update `currentIndex`,
rewrite every tabindex, and focus the element at the new index.  The
argument is an integer because the keydown handler passes
`currentIndex - 1`, which can be negative. -/
def moveTo (r : RovingState) (index : Int) : RovingState :=
  if index < 0 ∨ (r.elems.length : Int) ≤ index then r
  else
    let i := index.toNat
    let r' := updateTabindex { r with currentIndex := i }
    { r' with focusedIdx := some i }

/-- The orientation-specific arrow-key block of `handleKeydown`. -/
def arrowStep (r : RovingState) (key : String) : RovingState :=
  if r.orientation = "horizontal" then
    if key = "ArrowLeft" then
      let newIndex : Int := (r.currentIndex : Int) - 1
      moveTo r (if r.wrap ∧ newIndex < 0 then (r.elems.length : Int) - 1 else newIndex)
    else if key = "ArrowRight" then
      let newIndex : Int := (r.currentIndex : Int) + 1
      moveTo r (if r.wrap ∧ (r.elems.length : Int) ≤ newIndex then 0 else newIndex)
    else r
  else if r.orientation = "vertical" then
    if key = "ArrowUp" then
      let newIndex : Int := (r.currentIndex : Int) - 1
      moveTo r (if r.wrap ∧ newIndex < 0 then (r.elems.length : Int) - 1 else newIndex)
    else if key = "ArrowDown" then
      let newIndex : Int := (r.currentIndex : Int) + 1
      moveTo r (if r.wrap ∧ (r.elems.length : Int) ≤ newIndex then 0 else newIndex)
    else r
  else r

/-- `handleKeydown(event)`: the arrow block runs first, then the
Home/End block (on whatever state the arrow block produced, exactly as
the two statement groups execute in sequence in the source). -/
def handleKeydown (r : RovingState) (key : String) : RovingState :=
  let r1 := arrowStep r key
  if key = "Home" then moveTo r1 0
  else if key = "End" then moveTo r1 ((r1.elems.length : Int) - 1)
  else r1

/-- The focus listener attached to element `i`: when a managed element
receives native focus, resynchronize `currentIndex` to its position and
rewrite the tabindex attributes.  When the listener is not attached the
element still receives focus but the controller state is untouched. -/
def onFocusEvent (r : RovingState) (i : Nat) : RovingState :=
  if h : i < r.elems.length then
    if (r.elems.get ⟨i, h⟩).focusListener then
      updateTabindex { r with currentIndex := i, focusedIdx := some i }
    else { r with focusedIdx := some i }
  else r

/-- The keydown listener attached to element `i`: runs `handleKeydown`
only while attached. -/
def dispatchElemKeydown (r : RovingState) (i : Nat) (key : String) : RovingState :=
  if h : i < r.elems.length then
    if (r.elems.get ⟨i, h⟩).keydownListener then handleKeydown r key else r
  else r

/-- `destroy()`: the source removes only the keydown listener from each
element; the focus listener was registered as an anonymous closure and
is never removed, and tabindex attributes are not touched. -/
def destroy (r : RovingState) : RovingState :=
  { r with elems := r.elems.map (fun e => { e with keydownListener := false }) }

/-- The body of `createRovingTabindex` once the argument has been
validated as a non-empty array: attach both listeners to every element
(whose pre-existing tabindex values are `initTabs`), start at index 0,
and run `updateTabindex` once. -/
def initRoving (initTabs : List String) (orientation : String) (wrap : Bool) :
    RovingState :=
  updateTabindex
    { elems := initTabs.map (fun t => ⟨t, true, true⟩)
      currentIndex := 0
      orientation := orientation
      wrap := wrap
      focusedIdx := none }

/-- `createRovingTabindex(elements, options)`: a `none` argument models
any non-array value; `some []` models the empty array.  Both yield the
null sentinel plus the logged diagnostic; the definition's totality
reflects that the source never throws here. -/
def createRovingTabindex (elements : Option (List String))
    (orientation : String) (wrap : Bool) : Option RovingState × List String :=
  match elements with
  | none =>
    (none, ["[Accessibility] Invalid elements provided to createRovingTabindex"])
  | some [] =>
    (none, ["[Accessibility] Invalid elements provided to createRovingTabindex"])
  | some initTabs =>
    (some (initRoving initTabs orientation wrap), [])

/-- The roving-tabindex invariant of the spec: `currentIndex` is in
range and the element at `currentIndex` is exactly the one whose
tabindex attribute is "0", all others carrying "-1". -/
def tabindexInvariant (r : RovingState) : Prop :=
  r.currentIndex < r.elems.length ∧
  ∀ i (h : i < r.elems.length),
    (r.elems.get ⟨i, h⟩).tabindex =
      if i = r.currentIndex then "0" else "-1"

/-! ## Screen-reader announcer

The JS event loop is modelled as a discrete-event scheduler.  A
pending `setTimeout` callback is a `(fireTime, TimerAction)` pair; the
scheduler always runs the pending timer with the smallest fire time,
breaking ties by scheduling order, which is how browser timer queues
drain.  The live region is created by `initializeLiveRegion` on the
first `announce` call and never removed, so the `if (liveRegion)`
guards in the source are always true in every modelled run and are not
represented. -/

inductive TimerAction where
  /-- The outer `setTimeout` body scheduled by `processQueue` after
  `delay` ms: write the message into the live region and schedule the
  1000 ms settle callback. -/
  | deliver (message : String)
  /-- The inner 1000 ms `setTimeout` body: clear the live region if the
  queue is empty, then call `processQueue` again. -/
  | settle
  deriving Repr, DecidableEq

/-- One queued announcement: message, politeness and delay, as pushed
by `announce`. -/
structure Announcement where
  message : String
  politeness : String
  delay : Nat
  deriving Repr, DecidableEq

structure AnnouncerState where
  queue : List Announcement
  liveRegionText : String
  liveRegionPoliteness : String
  timers : List (Nat × TimerAction)
  now : Nat
  /-- Every assignment to `liveRegion.textContent`, with its time — the
  observable history of the live region. -/
  written : List (Nat × String)
  deriving Repr, DecidableEq

def initialAnnouncer : AnnouncerState :=
  { queue := []
    liveRegionText := ""
    liveRegionPoliteness := "polite"
    timers := []
    now := 0
    written := [] }

/-- `processQueue()`: if the queue is non-empty, shift its head, set
the region's `aria-live` politeness, and schedule the delivery callback
`delay` ms from now. -/
def processQueue (st : AnnouncerState) : AnnouncerState :=
  match st.queue with
  | [] => st
  | a :: rest =>
    { st with
      queue := rest
      liveRegionPoliteness := a.politeness
      timers := st.timers ++ [(st.now + a.delay, TimerAction.deliver a.message)] }

/-- Write `text` into the live region, recording the write. -/
def writeLiveRegion (st : AnnouncerState) (text : String) : AnnouncerState :=
  { st with liveRegionText := text, written := st.written ++ [(st.now, text)] }

/-- Run one fired timer callback. -/
def runTimerAction (st : AnnouncerState) : TimerAction → AnnouncerState
  | TimerAction.deliver msg =>
    let st1 := writeLiveRegion st msg
    { st1 with timers := st1.timers ++ [(st1.now + 1000, TimerAction.settle)] }
  | TimerAction.settle =>
    let st1 := if st.queue = [] then writeLiveRegion st "" else st
    processQueue st1

/-- `announce(message, options)`: reject empty messages, optionally
clear, push onto the queue, and start `processQueue` when the queue
holds exactly one entry after the push. -/
def announce (st : AnnouncerState) (message : String)
    (politeness : String) (delay : Nat) (clear : Bool) : AnnouncerState :=
  if message = "" then st
  else
    let st1 :=
      if clear then { st with queue := [], liveRegionText := "" } else st
    let st2 := { st1 with queue := st1.queue ++ [⟨message, politeness, delay⟩] }
    if st2.queue.length = 1 then processQueue st2 else st2

/-- Pick the pending timer with the smallest fire time (first among
equals), returning it and the remaining timers. -/
def selectMinTimer : List (Nat × TimerAction) →
    Option ((Nat × TimerAction) × List (Nat × TimerAction))
  | [] => none
  | t :: ts =>
    match selectMinTimer ts with
    | none => some (t, [])
    | some (u, us) => if t.1 ≤ u.1 then some (t, ts) else some (u, t :: us)

/-- Advance the clock to the next timer and run it; no pending timers
means the event loop is idle. -/
def runStep (st : AnnouncerState) : AnnouncerState :=
  match selectMinTimer st.timers with
  | none => st
  | some ((t, a), rest) => runTimerAction { st with now := t, timers := rest } a

def runSteps (st : AnnouncerState) : Nat → AnnouncerState
  | 0 => st
  | n + 1 => runSteps (runStep st) n

/-- The violation the announcer must avoid according to the spec: some
non-empty message is overwritten by a different text before it has been
visible for `settleMs` milliseconds. -/
def overwrittenBeforeSettle (settleMs : Nat) : List (Nat × String) → Bool
  | (t1, m1) :: (t2, m2) :: rest =>
    (m1 ≠ "" && m2 ≠ m1 && t2 < t1 + settleMs) ||
      overwrittenBeforeSettle settleMs ((t2, m2) :: rest)
  | _ => false

/-! ### Supporting lemmas for the validators -/

theorem mem_of_mem_trimJs {c : Char} {cs : List Char} (h : c ∈ trimJs cs) :
    c ∈ cs := by
  unfold trimJs at h
  rw [List.mem_reverse] at h
  have h1 := List.dropWhile_sublist (l := (cs.dropWhile isJsWhitespaceChar).reverse)
    (p := isJsWhitespaceChar)
  have h2 := h1.mem h
  rw [List.mem_reverse] at h2
  exact (List.dropWhile_sublist (l := cs) (p := isJsWhitespaceChar)).mem h2

theorem mem_of_mem_sanitizeInput {c : Char} {cs : List Char}
    (h : c ∈ sanitizeInput cs) : c ∈ cs := by
  unfold sanitizeInput at h
  exact mem_of_mem_trimJs (List.mem_of_mem_filter h)

theorem jsSplit_of_not_mem {sep : Char} {cs : List Char} (h : sep ∉ cs) :
    jsSplit sep cs = [cs] := by
  induction cs with
  | nil => rfl
  | cons c rest ih =>
    have hc : ¬ c = sep := fun hcs => h (hcs ▸ List.mem_cons_self c rest)
    have hrest : sep ∉ rest := fun hr => h (List.mem_cons_of_mem c hr)
    simp only [jsSplit, if_neg hc, ih hrest]

/-! ## Claim theorems: contact-form validation -/

/-- Claim C9: contact-form field thresholds.  `validateMessage` rejects
every message whose sanitized length is 9 and accepts every message of
sanitized length 10 (`minLength = 10`, `maxLength = 1000`);
`validateEmail` rejects every input containing no at-sign;
`validateCheckbox` returns valid exactly when the checkbox is checked. -/
theorem contact_form_thresholds :
    (∀ m : List Char, (sanitizeInput m).length = 9 →
      (validateMessage m).isValid = false) ∧
    (∀ m : List Char, (sanitizeInput m).length = 10 →
      (validateMessage m).isValid = true) ∧
    (∀ e : List Char, '@' ∉ e → (validateEmail e).isValid = false) ∧
    (validateCheckbox true).isValid = true ∧
    (validateCheckbox false).isValid = false := by
  refine ⟨?_, ?_, ?_, rfl, rfl⟩
  · intro m h
    have hne : ¬ sanitizeInput m = [] := by
      intro h0
      rw [h0] at h
      simp at h
    simp only [validateMessage]
    rw [if_neg hne, h]
    norm_num
  · intro m h
    have hne : ¬ sanitizeInput m = [] := by
      intro h0
      rw [h0] at h
      simp at h
    simp only [validateMessage]
    rw [if_neg hne, h]
    norm_num
  · intro e he
    have hs : '@' ∉ sanitizeInput e := fun hmem => he (mem_of_mem_sanitizeInput hmem)
    have hsplit : jsSplit '@' (sanitizeInput e) = [sanitizeInput e] :=
      jsSplit_of_not_mem hs
    have hpat : emailPatternTest (sanitizeInput e) = false := by
      unfold emailPatternTest
      rw [hsplit]
    simp only [validateEmail, hpat, Bool.not_false]
    split
    · rfl
    · split
      · rfl
      · simp

/-- Witness for C9 at concrete inputs: a 9-character message is
rejected, a 10-character one accepted, an at-sign-free email rejected,
and the two checkbox cases behave as claimed. -/
theorem contact_form_thresholds_witness :
    (validateMessage (String.toList "no thanks")).isValid = false ∧
    (validateMessage (String.toList "ten  chars")).isValid = true ∧
    (validateEmail (String.toList "not-an-email")).isValid = false ∧
    (validateCheckbox true).isValid = true ∧
    (validateCheckbox false).isValid = false :=
  ⟨contact_form_thresholds.1 (String.toList "no thanks") (by decide),
   contact_form_thresholds.2.1 (String.toList "ten  chars") (by decide),
   contact_form_thresholds.2.2.1 (String.toList "not-an-email") (by decide),
   contact_form_thresholds.2.2.2.1,
   contact_form_thresholds.2.2.2.2⟩

/-- Claim C10: any input whose sanitized form contains two consecutive
dots is rejected by `validateEmail` with a non-null error — the
consecutive-dot check fires even on strings accepted by
`EMAIL_PATTERN`. -/
theorem email_double_dot_rejected :
    ∀ e : List Char, hasDoubleDot (sanitizeInput e) = true →
      (validateEmail e).isValid = false ∧ (validateEmail e).error ≠ none := by
  intro e h
  simp only [validateEmail]
  split
  · exact ⟨rfl, by simp⟩
  split
  · exact ⟨rfl, by simp⟩
  split
  · exact ⟨rfl, by simp⟩
  exact ⟨rfl, by simp⟩

/-- Witness for C10 at the concrete input of the claim: "a@b..com"
matches `EMAIL_PATTERN` yet is rejected with a non-null error. -/
theorem email_double_dot_rejected_witness :
    hasDoubleDot (sanitizeInput (String.toList "a@b..com")) = true ∧
    emailPatternTest (sanitizeInput (String.toList "a@b..com")) = true ∧
    (validateEmail (String.toList "a@b..com")).isValid = false ∧
    (validateEmail (String.toList "a@b..com")).error ≠ none :=
  ⟨by decide, by decide,
   (email_double_dot_rejected (String.toList "a@b..com") (by decide)).1,
   (email_double_dot_rejected (String.toList "a@b..com") (by decide)).2⟩

/-! ## Claim theorems: focus trap -/

/-- Unfolding of `handleTabKey` for a Tab press with a non-empty
focusable list. -/
theorem handleTabKey_cons_eq (sh : Bool) (a : Nat) (t mem : List Nat) (act : Nat) :
    handleTabKey "Tab" sh (a :: t) mem act =
      if sh then
        if act = a ∨ act ∉ mem then ⟨true, some ((a :: t).getLastD 0)⟩
        else ⟨false, none⟩
      else
        if act = (a :: t).getLastD 0 ∨ act ∉ mem then ⟨true, some a⟩
        else ⟨false, none⟩ := rfl

/-- Claim C1: inside an active focus trap, a Tab press with no
focusable elements is suppressed with no focus movement; a forward Tab
from the last focusable (or from outside the container) prevents the
default and focuses the first; Shift+Tab from the first (or outside)
prevents the default and focuses the last; every other Tab press inside
the trap is left to the browser default. -/
theorem tab_key_trap_behavior (key : String) (shiftKey : Bool)
    (focusables containerMembers : List Nat) (activeElement first lastE : Nat) :
    key = "Tab" →
    ((focusables = [] →
        handleTabKey key shiftKey focusables containerMembers activeElement =
          ⟨true, none⟩) ∧
     (focusables.head? = some first → focusables.getLast? = some lastE →
      ((shiftKey = false →
          activeElement = lastE ∨ activeElement ∉ containerMembers →
          handleTabKey key shiftKey focusables containerMembers activeElement =
            ⟨true, some first⟩) ∧
       (shiftKey = true →
          activeElement = first ∨ activeElement ∉ containerMembers →
          handleTabKey key shiftKey focusables containerMembers activeElement =
            ⟨true, some lastE⟩) ∧
       (shiftKey = false → activeElement ≠ lastE →
          activeElement ∈ containerMembers →
          handleTabKey key shiftKey focusables containerMembers activeElement =
            ⟨false, none⟩) ∧
       (shiftKey = true → activeElement ≠ first →
          activeElement ∈ containerMembers →
          handleTabKey key shiftKey focusables containerMembers activeElement =
            ⟨false, none⟩)))) := by
  intro hkey
  subst hkey
  constructor
  · intro hempty
    subst hempty
    rfl
  · intro hhead hlast
    cases focusables with
    | nil => simp at hhead
    | cons a t =>
      simp only [List.head?_cons, Option.some.injEq] at hhead
      have hlastD : (a :: t).getLastD 0 = lastE := by
        rw [List.getLastD_eq_getLast?, hlast]
        rfl
      rw [← hhead, ← hlastD]
      refine ⟨?_, ?_, ?_, ?_⟩
      · intro hsh hcond
        subst hsh
        rw [handleTabKey_cons_eq, if_neg (by decide : ¬ ((false : Bool) = true)),
          if_pos hcond]
      · intro hsh hcond
        subst hsh
        rw [handleTabKey_cons_eq, if_pos (by decide : (true : Bool) = true),
          if_pos hcond]
      · intro hsh hne hmem
        subst hsh
        have hcond : ¬ (activeElement = (a :: t).getLastD 0 ∨
            activeElement ∉ containerMembers) := by
          push_neg
          exact ⟨hne, hmem⟩
        rw [handleTabKey_cons_eq, if_neg (by decide : ¬ ((false : Bool) = true)),
          if_neg hcond]
      · intro hsh hne hmem
        subst hsh
        have hcond : ¬ (activeElement = a ∨ activeElement ∉ containerMembers) := by
          push_neg
          exact ⟨hne, hmem⟩
        rw [handleTabKey_cons_eq, if_pos (by decide : (true : Bool) = true),
          if_neg hcond]

/-- Witness for C1 on the container of the spec's example, with
focusables [e1, e2, e3]: an empty trap suppresses Tab; Tab from e3
wraps to e1; Shift+Tab from e1 wraps to e3; Tab from outside the
container wraps to e1; Tab from e1 is left to the default. -/
theorem tab_key_trap_behavior_witness :
    handleTabKey "Tab" false ([] : List Nat) [7] 7 = ⟨true, none⟩ ∧
    handleTabKey "Tab" false [1, 2, 3] [1, 2, 3] 3 = ⟨true, some 1⟩ ∧
    handleTabKey "Tab" true [1, 2, 3] [1, 2, 3] 1 = ⟨true, some 3⟩ ∧
    handleTabKey "Tab" false [1, 2, 3] [1, 2, 3] 5 = ⟨true, some 1⟩ ∧
    handleTabKey "Tab" false [1, 2, 3] [1, 2, 3] 1 = ⟨false, none⟩ :=
  ⟨(tab_key_trap_behavior "Tab" false [] [7] 7 1 1 rfl).1 rfl,
   ((tab_key_trap_behavior "Tab" false [1, 2, 3] [1, 2, 3] 3 1 3 rfl).2 rfl rfl).1
     rfl (Or.inl rfl),
   ((tab_key_trap_behavior "Tab" true [1, 2, 3] [1, 2, 3] 1 1 3 rfl).2 rfl rfl).2.1
     rfl (Or.inl rfl),
   ((tab_key_trap_behavior "Tab" false [1, 2, 3] [1, 2, 3] 5 1 3 rfl).2 rfl rfl).1
     rfl (Or.inr (by decide)),
   ((tab_key_trap_behavior "Tab" false [1, 2, 3] [1, 2, 3] 1 1 3 rfl).2 rfl rfl).2.2.1
     rfl (by decide) (by decide)⟩

/-- Counterexample to claim C2 as stated: with no explicit
`returnFocus`, the default is captured when `createFocusTrap` runs, not
immediately before `activate()`.  Create the trap while element 1 is
focused, move focus to element 2, activate, release: focus is restored
to 1, not to the element (2) focused immediately before activation. -/
theorem trap_return_focus_counterexample :
    (focusChange (mkTrapState 10 none false 1) 2).focused = 2 ∧
    (release (activate (focusChange (mkTrapState 10 none false 1) 2)
        none [5, 6])).focused = 1 ∧
    (1 : Nat) ≠ 2 := by
  refine ⟨rfl, rfl, by decide⟩

/-- Claim C2, amended: `returnFocus` defaults to the element that was
`document.activeElement` when `createFocusTrap` was called; it is never
changed afterwards, and `release()` on an active trap restores focus to
it (for an explicitly supplied `returnFocus` element the same holds
with that element). -/
theorem trap_return_focus_amended :
    (∀ (c : Nat) (retOpt : Option Nat) (allow : Bool) (docActive : Nat),
       (mkTrapState c retOpt allow docActive).returnFocus =
         (match retOpt with
          | some r => r
          | none => docActive)) ∧
    (∀ (st : TrapState) (e : Nat), (focusChange st e).returnFocus = st.returnFocus) ∧
    (∀ (st : TrapState) (initF : Option Nat) (fs : List Nat),
       (activate st initF fs).returnFocus = st.returnFocus) ∧
    (∀ (st : TrapState) (key : String),
       (dispatchKeydown st key).returnFocus = st.returnFocus) ∧
    (∀ st : TrapState, st.active = true → (release st).focused = st.returnFocus) := by
  refine ⟨fun c retOpt allow d => by cases retOpt <;> rfl,
    fun st e => rfl, ?_, ?_, ?_⟩
  · intro st initF fs
    unfold activate
    split <;> rfl
  · intro st key
    unfold dispatchKeydown
    split
    · unfold release
      split <;> rfl
    · rfl
  · intro st h
    simp [release, h]

/-- Witness for the amended C2: create-activate-release on a concrete
trap restores focus to the creation-time active element 1. -/
theorem trap_return_focus_amended_witness :
    (release (activate (mkTrapState 10 none false 1) none [5])).focused = 1 :=
  Eq.trans
    (trap_return_focus_amended.2.2.2.2 (activate (mkTrapState 10 none false 1) none [5])
      rfl)
    rfl

/-- Claim C3: the three document-level listeners are attached exactly
while a trap is active (an invariant established at construction and
preserved by every operation), and a keydown with key Escape delivered
to an active trap — whatever element is focused — deactivates it and
detaches all three listeners. -/
theorem escape_releases_trap :
    (∀ (c : Nat) (retOpt : Option Nat) (allow : Bool) (d : Nat),
       listenersMatchActive (mkTrapState c retOpt allow d)) ∧
    (∀ (st : TrapState) (initF : Option Nat) (fs : List Nat),
       listenersMatchActive st → listenersMatchActive (activate st initF fs)) ∧
    (∀ st : TrapState, listenersMatchActive st → listenersMatchActive (release st)) ∧
    (∀ (st : TrapState) (e : Nat),
       listenersMatchActive st → listenersMatchActive (focusChange st e)) ∧
    (∀ (st : TrapState) (key : String),
       listenersMatchActive st → listenersMatchActive (dispatchKeydown st key)) ∧
    (∀ st : TrapState, listenersMatchActive st → st.active = true →
       (dispatchKeydown st "Escape").active = false ∧
       (dispatchKeydown st "Escape").tabKeyListener = false ∧
       (dispatchKeydown st "Escape").escapeKeyListener = false ∧
       (dispatchKeydown st "Escape").outsideClickListener = false) := by
  refine ⟨fun c retOpt allow d => ⟨rfl, rfl, rfl⟩, ?_, ?_, fun st e h => h, ?_, ?_⟩
  · intro st initF fs h
    unfold activate
    split
    · exact h
    · exact ⟨rfl, rfl, rfl⟩
  · intro st h
    unfold release
    split
    · exact h
    · exact ⟨rfl, rfl, rfl⟩
  · intro st key h
    unfold dispatchKeydown
    split
    · unfold release
      split
      · exact h
      · exact ⟨rfl, rfl, rfl⟩
    · exact h
  · intro st h hact
    obtain ⟨h1, h2, h3⟩ := h
    have hesc : st.escapeKeyListener = true := by rw [h2, hact]
    simp [dispatchKeydown, hesc, release, hact]

/-- Witness for C3: Escape delivered to a concrete activated trap
deactivates it. -/
theorem escape_releases_trap_witness :
    (dispatchKeydown (activate (mkTrapState 10 none false 1) none [5])
      "Escape").active = false :=
  (escape_releases_trap.2.2.2.2.2 (activate (mkTrapState 10 none false 1) none [5])
    ⟨rfl, rfl, rfl⟩ rfl).1

/-- Claim C8: both constructors return the null sentinel and log a
diagnostic on invalid input — `createFocusTrap` for a non-Element
container, `createRovingTabindex` for a non-array or empty-array
argument.  Both model functions are total, reflecting that the source
never throws on these paths. -/
theorem invalid_constructor_inputs :
    (∀ (retOpt : Option Nat) (allow : Bool) (d : Nat),
       createFocusTrap none retOpt allow d =
         (none, ["[Accessibility] Invalid container provided to createFocusTrap"])) ∧
    (∀ (o : String) (w : Bool),
       createRovingTabindex none o w =
         (none, ["[Accessibility] Invalid elements provided to createRovingTabindex"])) ∧
    (∀ (o : String) (w : Bool),
       createRovingTabindex (some []) o w =
         (none, ["[Accessibility] Invalid elements provided to createRovingTabindex"])) :=
  ⟨fun _ _ _ => rfl, fun _ _ => rfl, fun _ _ => rfl⟩

/-! ## Claim theorems: roving tabindex -/

theorem setTabs_length (cur k : Nat) (l : List ManagedElem) :
    (setTabs cur k l).length = l.length := by
  induction l generalizing k with
  | nil => rfl
  | cons e rest ih => simp [setTabs, ih]

theorem setTabs_get (cur : Nat) (l : List ManagedElem) :
    ∀ (k i : Nat) (h : i < (setTabs cur k l).length) (h' : i < l.length),
      (setTabs cur k l).get ⟨i, h⟩ =
        { l.get ⟨i, h'⟩ with tabindex := if k + i = cur then "0" else "-1" } := by
  induction l with
  | nil =>
    intro k i h h'
    simp at h'
  | cons e rest ih =>
    intro k i h h'
    cases i with
    | zero => simp [setTabs]
    | succ j =>
      have hj : j < (setTabs cur (k + 1) rest).length := by
        simpa [setTabs] using Nat.lt_of_succ_lt_succ h
      have hj' : j < rest.length := Nat.lt_of_succ_lt_succ h'
      have hstep : k + 1 + j = k + (j + 1) := by omega
      simpa [setTabs, hstep] using ih (k + 1) j hj hj'

theorem tabindexInvariant_updateTabindex (r : RovingState)
    (h : r.currentIndex < r.elems.length) : tabindexInvariant (updateTabindex r) := by
  constructor
  · simpa [updateTabindex, setTabs_length] using h
  · intro i hi
    have hi' : i < r.elems.length := by
      simpa [updateTabindex, setTabs_length] using hi
    show ((setTabs r.currentIndex 0 r.elems).get ⟨i, hi⟩).tabindex = _
    rw [setTabs_get r.currentIndex r.elems 0 i hi hi']
    simp [updateTabindex]

theorem tabindexInvariant_moveTo (r : RovingState) (h : tabindexInvariant r)
    (idx : Int) : tabindexInvariant (moveTo r idx) := by
  unfold moveTo
  split
  · exact h
  · rename_i hcond
    push_neg at hcond
    have hlt : idx.toNat < r.elems.length := by omega
    exact tabindexInvariant_updateTabindex { r with currentIndex := idx.toNat } hlt

theorem tabindexInvariant_arrowStep (r : RovingState) (h : tabindexInvariant r)
    (key : String) : tabindexInvariant (arrowStep r key) := by
  unfold arrowStep
  repeat' split
  all_goals first
    | exact h
    | exact tabindexInvariant_moveTo r h _

theorem tabindexInvariant_handleKeydown (r : RovingState) (h : tabindexInvariant r)
    (key : String) : tabindexInvariant (handleKeydown r key) := by
  unfold handleKeydown
  have h1 := tabindexInvariant_arrowStep r h key
  split
  · exact tabindexInvariant_moveTo _ h1 _
  split
  · exact tabindexInvariant_moveTo _ h1 _
  · exact h1

theorem tabindexInvariant_onFocusEvent (r : RovingState) (h : tabindexInvariant r)
    (i : Nat) : tabindexInvariant (onFocusEvent r i) := by
  unfold onFocusEvent
  split
  · rename_i hlt
    split
    · exact tabindexInvariant_updateTabindex _ hlt
    · exact h
  · exact h

theorem tabindexInvariant_dispatchElemKeydown (r : RovingState)
    (h : tabindexInvariant r) (i : Nat) (key : String) :
    tabindexInvariant (dispatchElemKeydown r i key) := by
  unfold dispatchElemKeydown
  split
  · split
    · exact tabindexInvariant_handleKeydown r h key
    · exact h
  · exact h

theorem tabindexInvariant_initRoving (ts : List String) (hne : ts ≠ [])
    (o : String) (w : Bool) : tabindexInvariant (initRoving ts o w) := by
  apply tabindexInvariant_updateTabindex
  simpa using List.length_pos.mpr hne

/-- Claim C4: the roving-tabindex invariant — `currentIndex` in range
and exactly the element at `currentIndex` carrying `tabindex="0"`, all
others `tabindex="-1"` — holds after successful construction and is
preserved by `moveTo`, by `handleKeydown` (arrow keys, Home, End), by a
keydown delivered through an element's listener, and by a native focus
event on a managed element. -/
theorem roving_tabindex_invariant_holds :
    (∀ (ts : List String) (o : String) (w : Bool) (r : RovingState),
       createRovingTabindex (some ts) o w = (some r, []) → tabindexInvariant r) ∧
    (∀ r : RovingState, tabindexInvariant r →
       (∀ idx : Int, tabindexInvariant (moveTo r idx)) ∧
       (∀ key : String, tabindexInvariant (handleKeydown r key)) ∧
       (∀ (i : Nat) (key : String), tabindexInvariant (dispatchElemKeydown r i key)) ∧
       (∀ i : Nat, tabindexInvariant (onFocusEvent r i))) := by
  constructor
  · intro ts o w r hc
    cases ts with
    | nil => simp [createRovingTabindex] at hc
    | cons a t =>
      simp only [createRovingTabindex, Prod.mk.injEq, Option.some.injEq] at hc
      rw [← hc.1]
      exact tabindexInvariant_initRoving (a :: t) (by simp) o w
  · intro r h
    exact ⟨fun idx => tabindexInvariant_moveTo r h idx,
      fun key => tabindexInvariant_handleKeydown r h key,
      fun i key => tabindexInvariant_dispatchElemKeydown r h i key,
      fun i => tabindexInvariant_onFocusEvent r h i⟩

/-- Witness for C4: the invariant holds on a freshly constructed
two-element controller and is preserved by an ArrowRight press. -/
theorem roving_tabindex_invariant_holds_witness :
    tabindexInvariant (initRoving ["a", "b"] "horizontal" true) ∧
    tabindexInvariant
      (handleKeydown (initRoving ["a", "b"] "horizontal" true) "ArrowRight") :=
  ⟨roving_tabindex_invariant_holds.1 ["a", "b"] "horizontal" true
     (initRoving ["a", "b"] "horizontal" true) rfl,
   (roving_tabindex_invariant_holds.2 (initRoving ["a", "b"] "horizontal" true)
     (roving_tabindex_invariant_holds.1 ["a", "b"] "horizontal" true
       (initRoving ["a", "b"] "horizontal" true) rfl)).2.1 "ArrowRight"⟩

theorem moveTo_eq_self_of_out (r : RovingState) (idx : Int)
    (h : idx < 0 ∨ (r.elems.length : Int) ≤ idx) : moveTo r idx = r := by
  unfold moveTo
  rw [if_pos h]

theorem moveTo_currentIndex_of_in (r : RovingState) (idx : Int)
    (h0 : 0 ≤ idx) (h1 : idx < (r.elems.length : Int)) :
    (moveTo r idx).currentIndex = idx.toNat := by
  unfold moveTo
  rw [if_neg (by omega)]
  rfl

theorem arrowStep_other (r : RovingState) (key : String)
    (hh : key ≠ "ArrowLeft") (hr : key ≠ "ArrowRight")
    (hu : key ≠ "ArrowUp") (hd : key ≠ "ArrowDown") : arrowStep r key = r := by
  unfold arrowStep
  split
  · rfl
  · split <;> rfl

theorem arrowStep_fwd (r : RovingState) (key : String)
    (h : (r.orientation = "horizontal" ∧ key = "ArrowRight") ∨
         (r.orientation = "vertical" ∧ key = "ArrowDown")) :
    arrowStep r key =
      moveTo r
        (if r.wrap ∧ (r.elems.length : Int) ≤ (r.currentIndex : Int) + 1 then 0
         else (r.currentIndex : Int) + 1) := by
  rcases h with ⟨ho, hk⟩ | ⟨ho, hk⟩ <;> subst hk <;> unfold arrowStep
  · rw [if_pos ho, if_neg (by decide), if_pos rfl]
  · have hne : ¬ r.orientation = "horizontal" := by rw [ho]; decide
    rw [if_neg hne, if_pos ho, if_neg (by decide), if_pos rfl]

theorem arrowStep_back (r : RovingState) (key : String)
    (h : (r.orientation = "horizontal" ∧ key = "ArrowLeft") ∨
         (r.orientation = "vertical" ∧ key = "ArrowUp")) :
    arrowStep r key =
      moveTo r
        (if r.wrap ∧ (r.currentIndex : Int) - 1 < 0 then (r.elems.length : Int) - 1
         else (r.currentIndex : Int) - 1) := by
  rcases h with ⟨ho, hk⟩ | ⟨ho, hk⟩ <;> subst hk <;> unfold arrowStep
  · rw [if_pos ho, if_pos rfl]
  · have hne : ¬ r.orientation = "horizontal" := by rw [ho]; decide
    rw [if_neg hne, if_pos ho, if_pos rfl]

theorem handleKeydown_arrow (r : RovingState) (key : String)
    (hh : key ≠ "Home") (he : key ≠ "End") :
    handleKeydown r key = arrowStep r key := by
  unfold handleKeydown
  rw [if_neg hh, if_neg he]

/-- Claim C5: boundary behavior of roving-tabindex navigation on a
group of size n.  With wrap, a forward arrow press at index n-1 moves
the index to 0 and a backward press at index 0 moves it to n-1 (in the
key set matching the orientation); without wrap the same presses leave
the whole controller state — index, tabindexes and focus — unchanged.
Home always moves to 0 and End to n-1 whatever the orientation. -/
theorem roving_boundary_navigation (r : RovingState) (n : Nat)
    (hlen : r.elems.length = n) (hn : 1 ≤ n) :
    ((r.orientation = "horizontal" →
       ((r.wrap = true → r.currentIndex = n - 1 →
           (handleKeydown r "ArrowRight").currentIndex = 0) ∧
        (r.wrap = true → r.currentIndex = 0 →
           (handleKeydown r "ArrowLeft").currentIndex = n - 1) ∧
        (r.wrap = false → r.currentIndex = n - 1 →
           handleKeydown r "ArrowRight" = r) ∧
        (r.wrap = false → r.currentIndex = 0 →
           handleKeydown r "ArrowLeft" = r))) ∧
     (r.orientation = "vertical" →
       ((r.wrap = true → r.currentIndex = n - 1 →
           (handleKeydown r "ArrowDown").currentIndex = 0) ∧
        (r.wrap = true → r.currentIndex = 0 →
           (handleKeydown r "ArrowUp").currentIndex = n - 1) ∧
        (r.wrap = false → r.currentIndex = n - 1 →
           handleKeydown r "ArrowDown" = r) ∧
        (r.wrap = false → r.currentIndex = 0 →
           handleKeydown r "ArrowUp" = r))) ∧
     (handleKeydown r "Home").currentIndex = 0 ∧
     (handleKeydown r "End").currentIndex = n - 1) := by
  have hfwd_wrap : ∀ key,
      (r.orientation = "horizontal" ∧ key = "ArrowRight") ∨
        (r.orientation = "vertical" ∧ key = "ArrowDown") →
      key ≠ "Home" → key ≠ "End" →
      r.wrap = true → r.currentIndex = n - 1 →
      (handleKeydown r key).currentIndex = 0 := by
    intro key hor hh he hwrap hcur
    rw [handleKeydown_arrow r key hh he, arrowStep_fwd r key hor]
    have hcond : r.wrap = true ∧
        (r.elems.length : Int) ≤ (r.currentIndex : Int) + 1 := by
      refine ⟨hwrap, ?_⟩
      rw [hcur, hlen]
      omega
    rw [if_pos hcond]
    rw [moveTo_currentIndex_of_in r 0 (le_refl 0)
      (by rw [hlen]; exact_mod_cast hn)]
    rfl
  have hback_wrap : ∀ key,
      (r.orientation = "horizontal" ∧ key = "ArrowLeft") ∨
        (r.orientation = "vertical" ∧ key = "ArrowUp") →
      key ≠ "Home" → key ≠ "End" →
      r.wrap = true → r.currentIndex = 0 →
      (handleKeydown r key).currentIndex = n - 1 := by
    intro key hor hh he hwrap hcur
    rw [handleKeydown_arrow r key hh he, arrowStep_back r key hor]
    have hcond : r.wrap = true ∧ (r.currentIndex : Int) - 1 < 0 := by
      refine ⟨hwrap, ?_⟩
      rw [hcur]
      norm_num
    rw [if_pos hcond]
    rw [moveTo_currentIndex_of_in r ((r.elems.length : Int) - 1)
      (by rw [hlen]; omega) (by omega)]
    rw [hlen]
    omega
  have hfwd_nowrap : ∀ key,
      (r.orientation = "horizontal" ∧ key = "ArrowRight") ∨
        (r.orientation = "vertical" ∧ key = "ArrowDown") →
      key ≠ "Home" → key ≠ "End" →
      r.wrap = false → r.currentIndex = n - 1 →
      handleKeydown r key = r := by
    intro key hor hh he hwrap hcur
    rw [handleKeydown_arrow r key hh he, arrowStep_fwd r key hor]
    have hcond : ¬ (r.wrap = true ∧
        (r.elems.length : Int) ≤ (r.currentIndex : Int) + 1) := by
      intro hc
      rw [hwrap] at hc
      exact Bool.false_ne_true hc.1
    rw [if_neg hcond]
    apply moveTo_eq_self_of_out
    right
    rw [hcur, hlen]
    omega
  have hback_nowrap : ∀ key,
      (r.orientation = "horizontal" ∧ key = "ArrowLeft") ∨
        (r.orientation = "vertical" ∧ key = "ArrowUp") →
      key ≠ "Home" → key ≠ "End" →
      r.wrap = false → r.currentIndex = 0 →
      handleKeydown r key = r := by
    intro key hor hh he hwrap hcur
    rw [handleKeydown_arrow r key hh he, arrowStep_back r key hor]
    have hcond : ¬ (r.wrap = true ∧ (r.currentIndex : Int) - 1 < 0) := by
      intro hc
      rw [hwrap] at hc
      exact Bool.false_ne_true hc.1
    rw [if_neg hcond]
    apply moveTo_eq_self_of_out
    left
    rw [hcur]
    norm_num
  refine ⟨?_, ?_, ?_, ?_⟩
  · intro ho
    exact ⟨hfwd_wrap "ArrowRight" (Or.inl ⟨ho, rfl⟩) (by decide) (by decide),
      hback_wrap "ArrowLeft" (Or.inl ⟨ho, rfl⟩) (by decide) (by decide),
      hfwd_nowrap "ArrowRight" (Or.inl ⟨ho, rfl⟩) (by decide) (by decide),
      hback_nowrap "ArrowLeft" (Or.inl ⟨ho, rfl⟩) (by decide) (by decide)⟩
  · intro ho
    exact ⟨hfwd_wrap "ArrowDown" (Or.inr ⟨ho, rfl⟩) (by decide) (by decide),
      hback_wrap "ArrowUp" (Or.inr ⟨ho, rfl⟩) (by decide) (by decide),
      hfwd_nowrap "ArrowDown" (Or.inr ⟨ho, rfl⟩) (by decide) (by decide),
      hback_nowrap "ArrowUp" (Or.inr ⟨ho, rfl⟩) (by decide) (by decide)⟩
  · unfold handleKeydown
    rw [arrowStep_other r "Home" (by decide) (by decide) (by decide) (by decide)]
    rw [if_pos rfl]
    rw [moveTo_currentIndex_of_in r 0 (le_refl 0) (by rw [hlen]; exact_mod_cast hn)]
    rfl
  · unfold handleKeydown
    rw [arrowStep_other r "End" (by decide) (by decide) (by decide) (by decide)]
    rw [if_neg (by decide), if_pos rfl]
    rw [moveTo_currentIndex_of_in r ((r.elems.length : Int) - 1)
      (by rw [hlen]; omega) (by omega)]
    rw [hlen]
    omega

/-- Witness for C5 on a three-element group: ArrowRight at index 2 with
wrap lands on 0; ArrowLeft at index 0 without wrap leaves the state
unchanged; End (vertical orientation) lands on index 2. -/
theorem roving_boundary_navigation_witness :
    (handleKeydown (moveTo (initRoving ["a", "b", "c"] "horizontal" true) 2)
      "ArrowRight").currentIndex = 0 ∧
    handleKeydown (initRoving ["a", "b", "c"] "horizontal" false) "ArrowLeft" =
      initRoving ["a", "b", "c"] "horizontal" false ∧
    (handleKeydown (initRoving ["a", "b", "c"] "vertical" true) "End").currentIndex =
      2 :=
  ⟨((roving_boundary_navigation
      (moveTo (initRoving ["a", "b", "c"] "horizontal" true) 2) 3 rfl
      (by decide)).1 rfl).1 rfl rfl,
   ((roving_boundary_navigation (initRoving ["a", "b", "c"] "horizontal" false) 3
      rfl (by decide)).1 rfl).2.2.2 rfl rfl,
   (roving_boundary_navigation (initRoving ["a", "b", "c"] "vertical" true) 3
      rfl (by decide)).2.2.2⟩

/-- Counterexample to claim C6 as stated: `destroy()` does not remove
the focus listeners — on a freshly constructed two-element controller,
after `destroy()` some managed element still has its focus listener
attached (in fact all do: the source registered them as anonymous
closures and only removes the keydown listeners). -/
theorem roving_destroy_counterexample :
    ¬ (∀ e ∈ (destroy (initRoving ["a", "b"] "horizontal" true)).elems,
        e.focusListener = false) := by
  decide

/-- Claim C6, amended: `destroy()` removes the keydown listener from
every managed element, leaves every focus listener attached, and leaves
both the tabindex attributes and `currentIndex` as last set. -/
theorem roving_destroy_removes_keydown_only :
    ∀ r : RovingState,
      ((destroy r).elems.all (fun e => !e.keydownListener)) = true ∧
      (destroy r).elems.map (fun e => e.focusListener) =
        r.elems.map (fun e => e.focusListener) ∧
      (destroy r).elems.map (fun e => e.tabindex) =
        r.elems.map (fun e => e.tabindex) ∧
      (destroy r).currentIndex = r.currentIndex := by
  intro r
  refine ⟨?_, ?_, ?_, rfl⟩
  · simp [destroy, List.all_map, Function.comp]
  · rw [destroy]
    rw [List.map_map]
    rfl
  · rw [destroy]
    rw [List.map_map]
    rfl

/-! ## Claim theorems: screen-reader announcer -/

/-- Claim C7 is violated by the code: after `announce("A")` immediately
followed by `announce("B")` (default politeness and 100 ms delay), the
first message is dequeued synchronously, so the second call sees a
one-element queue and starts a second concurrent drain.  Running the
event loop shows the full write history: "A" and "B" are both written
at t = 100 ms — "B" overwrites "A" with no settle interval — and after
two steps (t = 100 ms) the region already shows "B", where the claim
(and the repository's own test) require "A" to remain visible for its
1000 ms settle window. -/
theorem announce_overwrite_bug :
    (runSteps (announce (announce initialAnnouncer "A" "polite" 100 false)
        "B" "polite" 100 false) 4).written =
      [(100, "A"), (100, "B"), (1100, ""), (1100, "")] ∧
    overwrittenBeforeSettle 1000
      (runSteps (announce (announce initialAnnouncer "A" "polite" 100 false)
        "B" "polite" 100 false) 4).written = true ∧
    (runSteps (announce (announce initialAnnouncer "A" "polite" 100 false)
        "B" "polite" 100 false) 2).liveRegionText = "B" :=
  ⟨rfl, rfl, rfl⟩
